import Mathlib

/-!
Verification of the automatic-folders plugin (src/main.ts).

The plugin classifies date-named files and relocates them into a
`base/year/month` folder hierarchy.  We embed the core logic shallowly:

* the moment.js date library is abstracted as a `DateLib` structure
  (strict parse, format, today), with a small concrete instance
  (`momentLib`) covering the `YYYY-MM-DD` / `YYYY` / `MM` patterns used
  in concrete evaluations;
* the Obsidian vault is explicit state (`Vault`): a list of existing
  folder paths, a list of files, and an oracle `renameFails` telling
  which rename destinations make `vault.rename` throw;
* storage mutations are additionally recorded in an effect trace
  (`Effect`), so that claims about "no rename issued" / "no folder
  created" are statements about the trace.
-/

namespace AutoFolders

/-- Plugin settings (interface `AutomaticFoldersSettings`, src/main.ts lines 4-12). -/
structure Settings where
  baseJournalFolder : String
  createYearFolders : Bool
  createMonthFolders : Bool
  dailyNoteFormat : String
  monthlyFolderFormat : String
  yearlyFolderFormat : String
deriving DecidableEq, Repr

/-- `DEFAULT_SETTINGS` (src/main.ts lines 14-22). -/
def DEFAULT_SETTINGS : Settings :=
  { baseJournalFolder := "1 - journal"
    createYearFolders := true
    createMonthFolders := true
    dailyNoteFormat := "YYYY-MM-DD"
    monthlyFolderFormat := "MM-YYYY"
    yearlyFolderFormat := "YYYY" }

/-- An Obsidian `TFile` handle: parent folder path and full name
(base name plus extension).  Its `path` is `folder ++ "/" ++ name`. -/
structure TFile where
  folder : String
  name : String
deriving DecidableEq, Repr

/-- `file.path` of a `TFile` under a folder. -/
def TFile.path (f : TFile) : String := f.folder ++ "/" ++ f.name

/-- Abstraction of the moment.js calendar library: strict parse of a
string against a format pattern, rendering of a date with a pattern,
and the current date. -/
structure DateLib (D : Type) where
  parseStrict : String → String → Option D
  format : D → String → String
  today : D

/-- The storage backend's state: the set of existing folder paths, the
files, and an oracle saying for which destination paths `vault.rename`
throws (e.g. a name collision or I/O error at that destination). -/
structure Vault where
  folders : List String
  files : List TFile
  renameFails : String → Bool

/-- One storage-backend call made by the plugin: a `createFolder` call,
or a `rename` call (old path, new path, whether it succeeded). -/
inductive Effect where
  | createFolder : String → Effect
  | renameCall : String → String → Bool → Effect
deriving DecidableEq, Repr

/-- `true` exactly on `rename` backend calls (successful or not). -/
def isRenameEffect : Effect → Bool
  | Effect.renameCall _ _ _ => true
  | _ => false

/-- `true` exactly on successful `rename` calls, i.e. actual moves. -/
def isMoveEffect : Effect → Bool
  | Effect.renameCall _ _ ok => ok
  | _ => false

/-- `s.startsWith(p)` of JavaScript: string prefix test. -/
def startsWith (s p : String) : Bool := p.data.isPrefixOf s.data

/-- Helper for `stripExtRev`: scanning the reversed name past the
candidate extension run, report the remainder after a terminating dot,
or `none` when a slash or the start of the string is reached first. -/
def stripExtGo : List Char → Option (List Char)
  | [] => none
  | c :: rest =>
    if c = '.' then some rest
    else if c = '/' then none
    else stripExtGo rest

/-- The regex `\.[^/.]+$` of src/main.ts line 86, on the reversed
character list: the extension is a nonempty final run of characters
other than `.` and `/`, preceded by a dot; when present it is removed
together with its dot. -/
def stripExtRev (rcs : List Char) : List Char :=
  match rcs with
  | [] => []
  | c :: rest =>
    if c = '.' then rcs
    else if c = '/' then rcs
    else
      match stripExtGo rest with
      | some r => r
      | none => rcs

/-- `file.name.replace(/\.[^/.]+$/, "")` (src/main.ts line 86): the
file's base name with the final extension stripped. -/
def fileBaseName (name : String) : String :=
  String.mk (stripExtRev name.data.reverse).reverse

/-- `ensureFolderExists` (src/main.ts lines 60-65): create the folder
when it does not exist; idempotent. -/
def ensureFolderExists (v : Vault) (folderPath : String) : Vault × List Effect :=
  if v.folders.contains folderPath then (v, [])
  else ({ v with folders := folderPath :: v.folders }, [Effect.createFolder folderPath])

/-- The target folder path computed at src/main.ts line 116:
base, then the date rendered with the yearly format, then the date
rendered with the monthly format. -/
def targetFolder {D : Type} (lib : DateLib D) (base : String) (d : D)
    (yearFmt monthFmt : String) : String :=
  base ++ "/" ++ lib.format d yearFmt ++ "/" ++ lib.format d monthFmt

/-- Modelled from the spec (section 4.2), for comparison with
`targetFolder`: the spec's Path Resolver formula, read literally, is
`base + "/" + format(date, yearFmt) + "/" + base + "/" +
format(date, yearFmt) + "/" + format(date, monthFmt)`. -/
def targetFolderSpec {D : Type} (lib : DateLib D) (base : String) (d : D)
    (yearFmt monthFmt : String) : String :=
  base ++ "/" ++ lib.format d yearFmt ++ "/" ++ base ++ "/" ++
    lib.format d yearFmt ++ "/" ++ lib.format d monthFmt

/-- `this.app.vault.rename(file, newPath)` on success: the file handle
is relocated to the new parent folder, its name unchanged. -/
def renameVault (v : Vault) (file : TFile) (newFolder : String) : Vault :=
  { v with
    files := v.files.map (fun g => if g = file then { g with folder := newFolder } else g) }

/-- `handleOldDailyFile` (src/main.ts lines 83-138).  Returns the
classification result (`some name` when moved, `none` when skipped),
the updated vault, and the trace of storage-backend calls made. -/
def handleOldDailyFile {D : Type} (s : Settings) (lib : DateLib D) (v : Vault)
    (file : TFile) : Option String × Vault × List Effect :=
  let baseFolder := s.baseJournalFolder
  let base := fileBaseName file.name
  match lib.parseStrict base s.dailyNoteFormat with
  | none => (none, v, [])
  | some d =>
    let todayString := lib.format lib.today s.dailyNoteFormat
    if base = todayString then (none, v, [])
    else
      let targetFolderPath := targetFolder lib baseFolder d
        s.yearlyFolderFormat s.monthlyFolderFormat
      let r1 := ensureFolderExists v targetFolderPath
      if startsWith file.path targetFolderPath then (none, r1.1, r1.2)
      else
        let r2 := ensureFolderExists r1.1 targetFolderPath
        let newPath := targetFolderPath ++ "/" ++ file.name
        if v.renameFails newPath then
          (none, r2.1, r1.2 ++ r2.2 ++ [Effect.renameCall file.path newPath false])
        else
          (some file.name, renameVault r2.1 file targetFolderPath,
            r1.2 ++ r2.2 ++ [Effect.renameCall file.path newPath true])

/-- `ensureCurrentFolderExists` (src/main.ts lines 46-58): ensure
today's year folder and month folder exist under the base folder. -/
def ensureCurrentFolderExists {D : Type} (s : Settings) (lib : DateLib D)
    (v : Vault) : Vault × List Effect :=
  let yearString := lib.format lib.today s.yearlyFolderFormat
  let monthString := lib.format lib.today s.monthlyFolderFormat
  let yearlyFolderPath := s.baseJournalFolder ++ "/" ++ yearString
  let monthlyFolderPath := s.baseJournalFolder ++ "/" ++ yearString ++ "/" ++ monthString
  let r1 := ensureFolderExists v yearlyFolderPath
  let r2 := ensureFolderExists r1.1 monthlyFolderPath
  (r2.1, r1.2 ++ r2.2)

/-- The files directly inside `base`: the `TFile` children of the base
`TFolder` (src/main.ts lines 76-77). -/
def childrenFiles (v : Vault) (base : String) : List TFile :=
  v.files.filter (fun f => f.folder == base)

/-- The loop of `organizeExistingFiles` (src/main.ts lines 76-80):
apply `handleOldDailyFile` to each listed file in order, threading the
vault, collecting each file's result and the concatenated trace. -/
def processFiles {D : Type} (s : Settings) (lib : DateLib D) :
    List TFile → Vault → List (Option String) × Vault × List Effect
  | [], v => ([], v, [])
  | f :: rest, v =>
    let step := handleOldDailyFile s lib v f
    let next := processFiles s lib rest step.2.1
    (step.1 :: next.1, next.2.1, step.2.2 ++ next.2.2)

/-- `organizeExistingFiles` (src/main.ts lines 67-81): when the base
journal folder resolves to an existing folder, classify each of its
direct file children; otherwise log and return without touching
anything. -/
def organizeExistingFiles {D : Type} (s : Settings) (lib : DateLib D)
    (v : Vault) : List (Option String) × Vault × List Effect :=
  if v.folders.contains s.baseJournalFolder then
    processFiles s lib (childrenFiles v s.baseJournalFolder) v
  else ([], v, [])

/-! ### A concrete date library for evaluating the model

moment.js itself is external; for concrete runs we implement its
behaviour on the patterns the plugin's defaults use: strict parsing of
`YYYY-MM-DD`, and formatting with `YYYY`, `MM`, `MM-YYYY`, `YYYY-MM-DD`. -/

/-- A calendar date. -/
structure Date where
  year : Nat
  month : Nat
  day : Nat
deriving DecidableEq, Repr

/-- Numeric value of a digit character. -/
def digitVal (c : Char) : Nat := c.toNat - 48

/-- The character for decimal digit `n % 10`. -/
def digitChar (n : Nat) : Char := Char.ofNat (48 + n % 10)

/-- Render a number as four decimal digits. -/
def pad4 (n : Nat) : String :=
  String.mk [digitChar (n / 1000), digitChar (n / 100), digitChar (n / 10), digitChar n]

/-- Render a number as two decimal digits. -/
def pad2 (n : Nat) : String :=
  String.mk [digitChar (n / 10), digitChar n]

/-- Strict parse of a `YYYY-MM-DD` string: exactly ten characters,
digits and hyphens in place, month in 1..12 and day in 1..31. -/
def parseYMD (str : String) : Option Date :=
  match str.data with
  | [y1, y2, y3, y4, s1, m1, m2, s2, d1, d2] =>
    if s1 = '-' ∧ s2 = '-' ∧ ([y1, y2, y3, y4, m1, m2, d1, d2].all Char.isDigit) = true then
      let y := ((digitVal y1 * 10 + digitVal y2) * 10 + digitVal y3) * 10 + digitVal y4
      let m := digitVal m1 * 10 + digitVal m2
      let d := digitVal d1 * 10 + digitVal d2
      if 1 ≤ m ∧ m ≤ 12 ∧ 1 ≤ d ∧ d ≤ 31 then some { year := y, month := m, day := d }
      else none
    else none
  | _ => none

/-- Formatting for the patterns used by the plugin's defaults. -/
def formatDate (d : Date) (pat : String) : String :=
  if pat = "YYYY" then pad4 d.year
  else if pat = "MM" then pad2 d.month
  else if pat = "MM-YYYY" then pad2 d.month ++ "-" ++ pad4 d.year
  else if pat = "YYYY-MM-DD" then pad4 d.year ++ "-" ++ pad2 d.month ++ "-" ++ pad2 d.day
  else ""

/-- The concrete date library: strict parsing only for the
`YYYY-MM-DD` pattern, formatting per `formatDate`, a fixed today. -/
def momentLib (t : Date) : DateLib Date :=
  { parseStrict := fun name pat => if pat = "YYYY-MM-DD" then parseYMD name else none
    format := fun d pat => formatDate d pat
    today := t }

/-! ### Derived decision predicate

`handleOldDailyFile`'s branch taken for a file depends only on the
settings, the date library, the rename-failure oracle and the file
itself — not on the folder or file lists.  `wouldMove` captures the
"file gets successfully moved" branch, `moveDest` its destination. -/

/-- `true` iff `handleOldDailyFile` reaches the successful-rename
branch for this file: dated, not today, not already placed, and the
rename does not fail. -/
def wouldMove {D : Type} (s : Settings) (lib : DateLib D) (rf : String → Bool)
    (f : TFile) : Bool :=
  match lib.parseStrict (fileBaseName f.name) s.dailyNoteFormat with
  | none => false
  | some d =>
    if fileBaseName f.name = lib.format lib.today s.dailyNoteFormat then false
    else
      let tfp := targetFolder lib s.baseJournalFolder d
        s.yearlyFolderFormat s.monthlyFolderFormat
      if startsWith f.path tfp then false
      else !(rf (tfp ++ "/" ++ f.name))

/-- The target folder a dated file would be moved into (junk for
undated files; only consulted when `wouldMove` holds). -/
def moveDest {D : Type} (s : Settings) (lib : DateLib D) (f : TFile) : String :=
  match lib.parseStrict (fileBaseName f.name) s.dailyNoteFormat with
  | none => ""
  | some d => targetFolder lib s.baseJournalFolder d
      s.yearlyFolderFormat s.monthlyFolderFormat

/-- `true` iff `handleOldDailyFile` reaches the failed-rename branch
for this file: dated, not today, not already placed, and the rename
throws. -/
def wouldRetry {D : Type} (s : Settings) (lib : DateLib D) (rf : String → Bool)
    (f : TFile) : Bool :=
  match lib.parseStrict (fileBaseName f.name) s.dailyNoteFormat with
  | none => false
  | some d =>
    if fileBaseName f.name = lib.format lib.today s.dailyNoteFormat then false
    else
      let tfp := targetFolder lib s.baseJournalFolder d
        s.yearlyFolderFormat s.monthlyFolderFormat
      if startsWith f.path tfp then false
      else rf (tfp ++ "/" ++ f.name)

/-! ### Concrete instances for evaluating the model -/

/-- A fixed current date for concrete runs: 2025-06-01. -/
def cToday : Date := { year := 2025, month := 6, day := 1 }

/-- Concrete date library at `cToday`. -/
def cLib : DateLib Date := momentLib cToday

/-- Concrete settings: base folder `j`, default daily format, `YYYY`
year folders, `MM` month folders. -/
def cSettings : Settings :=
  { baseJournalFolder := "j"
    createYearFolders := true
    createMonthFolders := true
    dailyNoteFormat := "YYYY-MM-DD"
    monthlyFolderFormat := "MM"
    yearlyFolderFormat := "YYYY" }

/-- Rename oracle under which every rename succeeds. -/
def cNoFail : String → Bool := fun _ => false

/-- A vault with one old daily note, one undated note and today's note,
all directly in the base folder. -/
def cVault : Vault :=
  { folders := ["j"]
    files := [{ folder := "j", name := "2025-01-15.md" },
              { folder := "j", name := "notes.md" },
              { folder := "j", name := "2025-06-01.md" }]
    renameFails := cNoFail }

/-- Rename oracle failing exactly on the destination of
`2025-01-15.md`. -/
def cFailOracle : String → Bool := fun p => p == "j/2025/01/2025-01-15.md"

/-- A vault where the first file's move fails and the second file's
move succeeds. -/
def cVaultFail : Vault :=
  { folders := ["j"]
    files := [{ folder := "j", name := "2025-01-15.md" },
              { folder := "j", name := "2024-12-31.md" }]
    renameFails := cFailOracle }

/-- A vault with a single dated file whose rename always fails. -/
def cVaultRetry : Vault :=
  { folders := ["j"]
    files := [{ folder := "j", name := "2025-01-15" }]
    renameFails := fun _ => true }

/-- A vault with a single extensionless date-named file. -/
def cVaultBare : Vault :=
  { folders := ["j"]
    files := [{ folder := "j", name := "2025-01-15" }]
    renameFails := cNoFail }

/-- A vault with no folders at all: the base folder does not exist. -/
def cVaultEmpty : Vault :=
  { folders := []
    files := [{ folder := "j", name := "2025-01-15.md" }]
    renameFails := cNoFail }

/-! ### Basic lemmas about the storage operations -/

theorem ensureFolderExists_renameFails (v : Vault) (p : String) :
    (ensureFolderExists v p).1.renameFails = v.renameFails := by
  unfold ensureFolderExists
  split <;> rfl

theorem ensureFolderExists_files (v : Vault) (p : String) :
    (ensureFolderExists v p).1.files = v.files := by
  unfold ensureFolderExists
  split <;> rfl

theorem ensureFolderExists_trace_all (v : Vault) (p : String) (q : Effect → Bool)
    (h : q (Effect.createFolder p) = true) :
    ((ensureFolderExists v p).2).all q = true := by
  unfold ensureFolderExists
  split <;> simp [h]

/-- Ensuring the same folder twice in a row: the second call finds the
folder present and does nothing. -/
theorem ensureFolderExists_twice (v : Vault) (p : String) :
    ensureFolderExists (ensureFolderExists v p).1 p = ((ensureFolderExists v p).1, []) := by
  by_cases h : p ∈ v.folders
  · simp [ensureFolderExists, h]
  · simp [ensureFolderExists, h]

/-! ### Branch characterizations of `handleOldDailyFile` -/

/-- Branch: the base name does not strictly parse as a date. -/
theorem handle_eq_undated {D : Type} (s : Settings) (lib : DateLib D) (v : Vault)
    (f : TFile)
    (h : lib.parseStrict (fileBaseName f.name) s.dailyNoteFormat = none) :
    handleOldDailyFile s lib v f = (none, v, []) := by
  simp [handleOldDailyFile, h]

/-- Branch: the base name equals today's rendered date. -/
theorem handle_eq_today {D : Type} (s : Settings) (lib : DateLib D) (v : Vault)
    (f : TFile) (d : D)
    (h1 : lib.parseStrict (fileBaseName f.name) s.dailyNoteFormat = some d)
    (h2 : fileBaseName f.name = lib.format lib.today s.dailyNoteFormat) :
    handleOldDailyFile s lib v f = (none, v, []) := by
  simp only [handleOldDailyFile, h1]
  simp [h2]

/-- Branch: the file's path already starts with the target folder. -/
theorem handle_eq_placed {D : Type} (s : Settings) (lib : DateLib D) (v : Vault)
    (f : TFile) (d : D)
    (h1 : lib.parseStrict (fileBaseName f.name) s.dailyNoteFormat = some d)
    (h2 : fileBaseName f.name ≠ lib.format lib.today s.dailyNoteFormat)
    (h3 : startsWith f.path (targetFolder lib s.baseJournalFolder d
      s.yearlyFolderFormat s.monthlyFolderFormat) = true) :
    handleOldDailyFile s lib v f =
      (none, ensureFolderExists v (targetFolder lib s.baseJournalFolder d
        s.yearlyFolderFormat s.monthlyFolderFormat)) := by
  simp [handleOldDailyFile, h1, h2, h3]

/-- Branch: movable file, but the rename throws. -/
theorem handle_eq_failed {D : Type} (s : Settings) (lib : DateLib D) (v : Vault)
    (f : TFile) (d : D)
    (h1 : lib.parseStrict (fileBaseName f.name) s.dailyNoteFormat = some d)
    (h2 : fileBaseName f.name ≠ lib.format lib.today s.dailyNoteFormat)
    (h3 : startsWith f.path (targetFolder lib s.baseJournalFolder d
      s.yearlyFolderFormat s.monthlyFolderFormat) = false)
    (h4 : v.renameFails (targetFolder lib s.baseJournalFolder d
      s.yearlyFolderFormat s.monthlyFolderFormat ++ "/" ++ f.name) = true) :
    handleOldDailyFile s lib v f =
      (none,
       (ensureFolderExists v (targetFolder lib s.baseJournalFolder d
         s.yearlyFolderFormat s.monthlyFolderFormat)).1,
       (ensureFolderExists v (targetFolder lib s.baseJournalFolder d
         s.yearlyFolderFormat s.monthlyFolderFormat)).2 ++
         [Effect.renameCall f.path (targetFolder lib s.baseJournalFolder d
           s.yearlyFolderFormat s.monthlyFolderFormat ++ "/" ++ f.name) false]) := by
  simp [handleOldDailyFile, h1, h2, h3, h4, ensureFolderExists_twice]

/-- Branch: movable file, rename succeeds. -/
theorem handle_eq_moved {D : Type} (s : Settings) (lib : DateLib D) (v : Vault)
    (f : TFile) (d : D)
    (h1 : lib.parseStrict (fileBaseName f.name) s.dailyNoteFormat = some d)
    (h2 : fileBaseName f.name ≠ lib.format lib.today s.dailyNoteFormat)
    (h3 : startsWith f.path (targetFolder lib s.baseJournalFolder d
      s.yearlyFolderFormat s.monthlyFolderFormat) = false)
    (h4 : v.renameFails (targetFolder lib s.baseJournalFolder d
      s.yearlyFolderFormat s.monthlyFolderFormat ++ "/" ++ f.name) = false) :
    handleOldDailyFile s lib v f =
      (some f.name,
       renameVault (ensureFolderExists v (targetFolder lib s.baseJournalFolder d
         s.yearlyFolderFormat s.monthlyFolderFormat)).1 f
         (targetFolder lib s.baseJournalFolder d
           s.yearlyFolderFormat s.monthlyFolderFormat),
       (ensureFolderExists v (targetFolder lib s.baseJournalFolder d
         s.yearlyFolderFormat s.monthlyFolderFormat)).2 ++
         [Effect.renameCall f.path (targetFolder lib s.baseJournalFolder d
           s.yearlyFolderFormat s.monthlyFolderFormat ++ "/" ++ f.name) true]) := by
  simp [handleOldDailyFile, h1, h2, h3, h4, ensureFolderExists_twice]

/-! ### The decision for a file does not depend on the folder/file lists -/

/-- The target folder path is strictly longer than, hence distinct
from, the base folder path. -/
theorem targetFolder_ne_base {D : Type} (lib : DateLib D) (base : String) (d : D)
    (yf mf : String) : targetFolder lib base d yf mf ≠ base := by
  intro h
  have hlen := congrArg String.length h
  simp [targetFolder, String.length_append] at hlen
  have hslash : "/".length = 1 := rfl
  omega

/-- A file that would be moved has a parseable base name. -/
theorem wouldMove_parse {D : Type} (s : Settings) (lib : DateLib D) (rf : String → Bool)
    (f : TFile) (h : wouldMove s lib rf f = true) :
    ∃ d, lib.parseStrict (fileBaseName f.name) s.dailyNoteFormat = some d := by
  cases hp : lib.parseStrict (fileBaseName f.name) s.dailyNoteFormat with
  | none =>
    unfold wouldMove at h
    rw [hp] at h
    exact absurd h (by simp)
  | some d => exact ⟨d, rfl⟩

/-- A moved file's destination folder is never the base folder. -/
theorem moveDest_ne_base {D : Type} (s : Settings) (lib : DateLib D) (rf : String → Bool)
    (f : TFile) (h : wouldMove s lib rf f = true) :
    moveDest s lib f ≠ s.baseJournalFolder := by
  rcases wouldMove_parse s lib rf f h with ⟨d, hp⟩
  have hmd : moveDest s lib f = targetFolder lib s.baseJournalFolder d
      s.yearlyFolderFormat s.monthlyFolderFormat := by
    simp [moveDest, hp]
  rw [hmd]
  exact targetFolder_ne_base lib s.baseJournalFolder d _ _

/-- Classification never changes the rename-failure oracle. -/
theorem handle_renameFails {D : Type} (s : Settings) (lib : DateLib D) (v : Vault)
    (f : TFile) :
    (handleOldDailyFile s lib v f).2.1.renameFails = v.renameFails := by
  cases hp : lib.parseStrict (fileBaseName f.name) s.dailyNoteFormat with
  | none => rw [handle_eq_undated s lib v f hp]
  | some d =>
    by_cases h2 : fileBaseName f.name = lib.format lib.today s.dailyNoteFormat
    · rw [handle_eq_today s lib v f d hp h2]
    · by_cases h3 : startsWith f.path (targetFolder lib s.baseJournalFolder d
        s.yearlyFolderFormat s.monthlyFolderFormat) = true
      · rw [handle_eq_placed s lib v f d hp h2 h3]
        exact ensureFolderExists_renameFails v _
      · have h3f : startsWith f.path (targetFolder lib s.baseJournalFolder d
          s.yearlyFolderFormat s.monthlyFolderFormat) = false := by simpa using h3
        by_cases h4 : v.renameFails (targetFolder lib s.baseJournalFolder d
          s.yearlyFolderFormat s.monthlyFolderFormat ++ "/" ++ f.name) = true
        · rw [handle_eq_failed s lib v f d hp h2 h3f h4]
          exact ensureFolderExists_renameFails v _
        · have h4f : v.renameFails (targetFolder lib s.baseJournalFolder d
            s.yearlyFolderFormat s.monthlyFolderFormat ++ "/" ++ f.name) = false := by
            simpa using h4
          rw [handle_eq_moved s lib v f d hp h2 h3f h4f]
          simp [renameVault, ensureFolderExists_renameFails]

/-- When the file would not be moved, classification returns `none`,
leaves the file list untouched, and its trace holds no successful
rename. -/
theorem handle_of_not_wouldMove {D : Type} (s : Settings) (lib : DateLib D)
    (v : Vault) (f : TFile) (h : wouldMove s lib v.renameFails f = false) :
    (handleOldDailyFile s lib v f).1 = none ∧
    (handleOldDailyFile s lib v f).2.1.files = v.files ∧
    ((handleOldDailyFile s lib v f).2.2).all (fun e => !isMoveEffect e) = true := by
  cases hp : lib.parseStrict (fileBaseName f.name) s.dailyNoteFormat with
  | none =>
    rw [handle_eq_undated s lib v f hp]
    exact ⟨rfl, rfl, rfl⟩
  | some d =>
    by_cases h2 : fileBaseName f.name = lib.format lib.today s.dailyNoteFormat
    · rw [handle_eq_today s lib v f d hp h2]
      exact ⟨rfl, rfl, rfl⟩
    · by_cases h3 : startsWith f.path (targetFolder lib s.baseJournalFolder d
        s.yearlyFolderFormat s.monthlyFolderFormat) = true
      · rw [handle_eq_placed s lib v f d hp h2 h3]
        exact ⟨rfl, ensureFolderExists_files v _,
          ensureFolderExists_trace_all v _ _ rfl⟩
      · have h3f : startsWith f.path (targetFolder lib s.baseJournalFolder d
          s.yearlyFolderFormat s.monthlyFolderFormat) = false := by simpa using h3
        have h4 : v.renameFails (targetFolder lib s.baseJournalFolder d
            s.yearlyFolderFormat s.monthlyFolderFormat ++ "/" ++ f.name) = true := by
          unfold wouldMove at h
          rw [hp] at h
          simp [h2, h3f] at h
          exact h
        rw [handle_eq_failed s lib v f d hp h2 h3f h4]
        refine ⟨rfl, ensureFolderExists_files v _, ?_⟩
        rw [List.all_append, ensureFolderExists_trace_all v _ _ rfl]
        rfl

/-- When the file would be moved, the new file list is the old one with
that file relocated to its destination folder. -/
theorem handle_of_wouldMove {D : Type} (s : Settings) (lib : DateLib D)
    (v : Vault) (f : TFile) (h : wouldMove s lib v.renameFails f = true) :
    (handleOldDailyFile s lib v f).2.1.files =
      v.files.map (fun g => if g = f then { g with folder := moveDest s lib f } else g) := by
  rcases wouldMove_parse s lib v.renameFails f h with ⟨d, hp⟩
  unfold wouldMove at h
  rw [hp] at h
  by_cases h2 : fileBaseName f.name = lib.format lib.today s.dailyNoteFormat
  · simp [h2] at h
  · by_cases h3 : startsWith f.path (targetFolder lib s.baseJournalFolder d
      s.yearlyFolderFormat s.monthlyFolderFormat) = true
    · simp [h2, h3] at h
    · have h3f : startsWith f.path (targetFolder lib s.baseJournalFolder d
        s.yearlyFolderFormat s.monthlyFolderFormat) = false := by simpa using h3
      simp only [h3f] at h
      simp [h2] at h
      have h4f : v.renameFails (targetFolder lib s.baseJournalFolder d
          s.yearlyFolderFormat s.monthlyFolderFormat ++ "/" ++ f.name) = false := h
      rw [handle_eq_moved s lib v f d hp h2 h3f h4f]
      simp [renameVault, ensureFolderExists_files, moveDest, hp]

/-- Folder creation never emits a rename call. -/
theorem ensureFolderExists_no_rename (w : Vault) (p : String) :
    ∀ e ∈ (ensureFolderExists w p).2, isRenameEffect e = false := by
  intro e
  unfold ensureFolderExists
  split
  · intro he
    simp at he
  · intro he
    simp at he
    rw [he]
    rfl

/-- When the file would not be moved, any rename call in its trace is
the failed-branch call: the file is in the retry branch and the call
renames it to its destination with the failure flag. -/
theorem handle_rename_of_not_wouldMove {D : Type} (s : Settings) (lib : DateLib D)
    (w : Vault) (f : TFile) (h : wouldMove s lib w.renameFails f = false) :
    ∀ e ∈ (handleOldDailyFile s lib w f).2.2, isRenameEffect e = true →
      wouldRetry s lib w.renameFails f = true ∧
      e = Effect.renameCall f.path (moveDest s lib f ++ "/" ++ f.name) false := by
  intro e he hre
  cases hp : lib.parseStrict (fileBaseName f.name) s.dailyNoteFormat with
  | none =>
    rw [handle_eq_undated s lib w f hp] at he
    simp at he
  | some d =>
    have hmd : moveDest s lib f = targetFolder lib s.baseJournalFolder d
        s.yearlyFolderFormat s.monthlyFolderFormat := by
      simp [moveDest, hp]
    by_cases h2 : fileBaseName f.name = lib.format lib.today s.dailyNoteFormat
    · rw [handle_eq_today s lib w f d hp h2] at he
      simp at he
    · by_cases h3 : startsWith f.path (targetFolder lib s.baseJournalFolder d
        s.yearlyFolderFormat s.monthlyFolderFormat) = true
      · rw [handle_eq_placed s lib w f d hp h2 h3] at he
        exact absurd hre (by rw [ensureFolderExists_no_rename w _ e he]; simp)
      · have h3f : startsWith f.path (targetFolder lib s.baseJournalFolder d
          s.yearlyFolderFormat s.monthlyFolderFormat) = false := by simpa using h3
        by_cases h4 : w.renameFails (targetFolder lib s.baseJournalFolder d
            s.yearlyFolderFormat s.monthlyFolderFormat ++ "/" ++ f.name) = true
        · rw [handle_eq_failed s lib w f d hp h2 h3f h4] at he
          rw [List.mem_append] at he
          cases he with
          | inl hens =>
            exact absurd hre (by rw [ensureFolderExists_no_rename w _ e hens]; simp)
          | inr hlast =>
            have hr : wouldRetry s lib w.renameFails f = true := by
              unfold wouldRetry
              rw [hp]
              simp [h2, h3f, h4]
            refine ⟨hr, ?_⟩
            rw [hmd]
            simpa using hlast
        · exfalso
          have h4f : w.renameFails (targetFolder lib s.baseJournalFolder d
              s.yearlyFolderFormat s.monthlyFolderFormat ++ "/" ++ f.name) = false := by
            simpa using h4
          have hw : wouldMove s lib w.renameFails f = true := by
            unfold wouldMove
            rw [hp]
            simp [h2, h3f, h4f]
          rw [hw] at h
          exact Bool.true_eq_false.mp h

/-- When the file is in the failed-rename branch, its trace contains
the failed rename call to its destination. -/
theorem handle_retry_effect_mem {D : Type} (s : Settings) (lib : DateLib D)
    (w : Vault) (f : TFile) (h : wouldRetry s lib w.renameFails f = true) :
    Effect.renameCall f.path (moveDest s lib f ++ "/" ++ f.name) false
      ∈ (handleOldDailyFile s lib w f).2.2 := by
  cases hp : lib.parseStrict (fileBaseName f.name) s.dailyNoteFormat with
  | none =>
    unfold wouldRetry at h
    rw [hp] at h
    simp at h
  | some d =>
    unfold wouldRetry at h
    rw [hp] at h
    by_cases h2 : fileBaseName f.name = lib.format lib.today s.dailyNoteFormat
    · simp [h2] at h
    · by_cases h3 : startsWith f.path (targetFolder lib s.baseJournalFolder d
        s.yearlyFolderFormat s.monthlyFolderFormat) = true
      · simp [h2, h3] at h
      · have h3f : startsWith f.path (targetFolder lib s.baseJournalFolder d
          s.yearlyFolderFormat s.monthlyFolderFormat) = false := by simpa using h3
        simp only [h3f] at h
        simp [h2] at h
        rw [handle_eq_failed s lib w f d hp h2 h3f h]
        have hmd : moveDest s lib f = targetFolder lib s.baseJournalFolder d
            s.yearlyFolderFormat s.monthlyFolderFormat := by
          simp [moveDest, hp]
        rw [hmd]
        simp

/-! ### The bulk sweep -/

/-- The sweep loop never changes the rename-failure oracle. -/
theorem processFiles_renameFails {D : Type} (s : Settings) (lib : DateLib D)
    (L : List TFile) :
    ∀ v : Vault, (processFiles s lib L v).2.1.renameFails = v.renameFails := by
  induction L with
  | nil => intro v; rfl
  | cons f rest ih =>
    intro v
    simp only [processFiles]
    rw [ih, handle_renameFails]

/-- The sweep loop yields one classification result per listed file. -/
theorem processFiles_length {D : Type} (s : Settings) (lib : DateLib D)
    (L : List TFile) :
    ∀ v : Vault, (processFiles s lib L v).1.length = L.length := by
  induction L with
  | nil => intro v; rfl
  | cons f rest ih =>
    intro v
    simp only [processFiles, List.length_cons]
    rw [ih]

/-- After the sweep loop has run over a list scheduling every movable
file that sits directly in the base folder, no file directly in the
base folder would still be moved. -/
theorem processFiles_post {D : Type} (s : Settings) (lib : DateLib D)
    (L : List TFile) :
    ∀ v : Vault,
      (∀ g ∈ v.files, g.folder = s.baseJournalFolder →
        wouldMove s lib v.renameFails g = true → g ∈ L) →
      ∀ g ∈ (processFiles s lib L v).2.1.files,
        g.folder = s.baseJournalFolder → wouldMove s lib v.renameFails g = false := by
  induction L with
  | nil =>
    intro v h g hg hfold
    by_cases hw : wouldMove s lib v.renameFails g = true
    · exact absurd (h g hg hfold hw) (List.not_mem_nil g)
    · simpa using hw
  | cons f rest ih =>
    intro v h g hg hfold
    simp only [processFiles] at hg
    have hrf : (handleOldDailyFile s lib v f).2.1.renameFails = v.renameFails :=
      handle_renameFails s lib v f
    have hpre : ∀ g2 ∈ (handleOldDailyFile s lib v f).2.1.files,
        g2.folder = s.baseJournalFolder →
        wouldMove s lib (handleOldDailyFile s lib v f).2.1.renameFails g2 = true →
        g2 ∈ rest := by
      intro g2 hg2 hfold2 hw2
      rw [hrf] at hw2
      by_cases hwf : wouldMove s lib v.renameFails f = true
      · rw [handle_of_wouldMove s lib v f hwf] at hg2
        rcases List.mem_map.mp hg2 with ⟨g0, hg0, hEq⟩
        by_cases hgf : g0 = f
        · exfalso
          rw [if_pos hgf] at hEq
          apply moveDest_ne_base s lib v.renameFails f hwf
          rw [← hEq] at hfold2
          exact hfold2
        · rw [if_neg hgf] at hEq
          subst hEq
          have hmem := h g0 hg0 hfold2 hw2
          cases List.mem_cons.mp hmem with
          | inl heq => exact absurd heq hgf
          | inr hrest => exact hrest
      · have hwfF : wouldMove s lib v.renameFails f = false := by simpa using hwf
        rw [(handle_of_not_wouldMove s lib v f hwfF).2.1] at hg2
        have hmem := h g2 hg2 hfold2 hw2
        cases List.mem_cons.mp hmem with
        | inl heq =>
          exfalso
          rw [heq] at hw2
          rw [hw2] at hwfF
          exact Bool.true_eq_false.mp hwfF
        | inr hrest => exact hrest
    have post := ih (handleOldDailyFile s lib v f).2.1 hpre g hg hfold
    rwa [hrf] at post

/-- When no listed file would be moved, the sweep loop's trace holds no
successful rename. -/
theorem processFiles_no_moves {D : Type} (s : Settings) (lib : DateLib D)
    (L : List TFile) :
    ∀ v : Vault, (∀ g ∈ L, wouldMove s lib v.renameFails g = false) →
      ((processFiles s lib L v).2.2).all (fun e => !isMoveEffect e) = true := by
  induction L with
  | nil => intro v _; rfl
  | cons f rest ih =>
    intro v h
    simp only [processFiles, List.all_append, Bool.and_eq_true]
    refine ⟨(handle_of_not_wouldMove s lib v f (h f (List.mem_cons_self f rest))).2.2, ?_⟩
    apply ih
    intro g hg
    rw [handle_renameFails]
    exact h g (List.mem_cons_of_mem f hg)

/-- A file sitting directly in the base folder after the sweep loop
was already in the vault before it: renames only ever relocate files
out of the base folder. -/
theorem processFiles_base_mem {D : Type} (s : Settings) (lib : DateLib D)
    (L : List TFile) :
    ∀ w : Vault, ∀ g ∈ (processFiles s lib L w).2.1.files,
      g.folder = s.baseJournalFolder → g ∈ w.files := by
  induction L with
  | nil =>
    intro w g hg _
    simp only [processFiles] at hg
    exact hg
  | cons f rest ih =>
    intro w g hg hfold
    simp only [processFiles] at hg
    have hg2 := ih (handleOldDailyFile s lib w f).2.1 g hg hfold
    by_cases hw : wouldMove s lib w.renameFails f = true
    · rw [handle_of_wouldMove s lib w f hw] at hg2
      rcases List.mem_map.mp hg2 with ⟨g0, hg0, hEq⟩
      by_cases hgf : g0 = f
      · exfalso
        rw [if_pos hgf] at hEq
        apply moveDest_ne_base s lib w.renameFails f hw
        rw [← hEq] at hfold
        exact hfold
      · rw [if_neg hgf] at hEq
        rw [← hEq]
        exact hg0
    · have hwF : wouldMove s lib w.renameFails f = false := by simpa using hw
      rw [(handle_of_not_wouldMove s lib w f hwF).2.1] at hg2
      exact hg2

/-- A listed file in the failed-rename branch leaves its failed rename
call in the sweep loop's trace. -/
theorem processFiles_retry_mem {D : Type} (s : Settings) (lib : DateLib D)
    (L : List TFile) :
    ∀ w : Vault, ∀ g ∈ L, wouldRetry s lib w.renameFails g = true →
      Effect.renameCall g.path (moveDest s lib g ++ "/" ++ g.name) false
        ∈ (processFiles s lib L w).2.2 := by
  induction L with
  | nil =>
    intro w g hg
    simp at hg
  | cons f rest ih =>
    intro w g hg hr
    simp only [processFiles]
    rw [List.mem_append]
    cases List.mem_cons.mp hg with
    | inl heq =>
      subst heq
      exact Or.inl (handle_retry_effect_mem s lib w g hr)
    | inr hrest =>
      refine Or.inr (ih (handleOldDailyFile s lib w f).2.1 g hrest ?_)
      rw [handle_renameFails]
      exact hr

/-- When no listed file would be moved, every rename call in the sweep
loop's trace is some listed file's failed-branch rename call. -/
theorem processFiles_rename_source {D : Type} (s : Settings) (lib : DateLib D)
    (L : List TFile) :
    ∀ w : Vault, (∀ g ∈ L, wouldMove s lib w.renameFails g = false) →
      ∀ e ∈ (processFiles s lib L w).2.2, isRenameEffect e = true →
        ∃ g ∈ L, wouldRetry s lib w.renameFails g = true ∧
          e = Effect.renameCall g.path (moveDest s lib g ++ "/" ++ g.name) false := by
  induction L with
  | nil =>
    intro w _ e he
    simp [processFiles] at he
  | cons f rest ih =>
    intro w h e he hre
    simp only [processFiles] at he
    rw [List.mem_append] at he
    cases he with
    | inl hstep =>
      have hf := handle_rename_of_not_wouldMove s lib w f
        (h f (List.mem_cons_self f rest)) e hstep hre
      exact ⟨f, List.mem_cons_self f rest, hf.1, hf.2⟩
    | inr hrest =>
      have hpre : ∀ g ∈ rest,
          wouldMove s lib (handleOldDailyFile s lib w f).2.1.renameFails g = false := by
        intro g hg
        rw [handle_renameFails]
        exact h g (List.mem_cons_of_mem f hg)
      rcases ih (handleOldDailyFile s lib w f).2.1 hpre e hrest hre with ⟨g, hgL, hr, hEq⟩
      rw [handle_renameFails] at hr
      exact ⟨g, List.mem_cons_of_mem f hgL, hr, hEq⟩

/-! ### Extension stripping on dot-free names -/

theorem stripExtGo_eq_none (l : List Char) (h : '.' ∉ l) : stripExtGo l = none := by
  induction l with
  | nil => rfl
  | cons c rest ih =>
    have hc : ¬(c = '.') := by
      intro hEq
      exact h (by simp [hEq])
    have hrest : '.' ∉ rest := fun hm => h (List.mem_cons_of_mem c hm)
    by_cases hs : c = '/'
    · simp [stripExtGo, hc, hs]
    · simp [stripExtGo, hc, hs]
      exact ih hrest

theorem stripExtRev_eq_self (l : List Char) (h : '.' ∉ l) : stripExtRev l = l := by
  cases l with
  | nil => rfl
  | cons c rest =>
    have hgo : stripExtGo rest = none :=
      stripExtGo_eq_none rest (fun hm => h (List.mem_cons_of_mem c hm))
    by_cases h1 : c = '.'
    · simp [stripExtRev, h1]
    · by_cases h2 : c = '/'
      · simp [stripExtRev, h1, h2]
      · simp [stripExtRev, h1, h2, hgo]

theorem fileBaseName_eq_self (name : String) (h : '.' ∉ name.data) :
    fileBaseName name = name := by
  unfold fileBaseName
  rw [stripExtRev_eq_self _ (by simpa using h), List.reverse_reverse]

/-! ### The claims -/

/-- C1: for every file handle whose base name (after stripping the
final extension) strictly parses to a date `d` under
`dailyNoteFormat`, which is not today's file, and whose current path
does not start with the target folder path, `handleOldDailyFile`
renames the file to
`base/format(d, yearlyFolderFormat)/format(d, monthlyFolderFormat)/name`
(extension included), and on success returns the file's name. -/
theorem dated_file_moved_to_year_month {D : Type} (s : Settings) (lib : DateLib D)
    (v : Vault) (f : TFile) (d : D)
    (h1 : lib.parseStrict (fileBaseName f.name) s.dailyNoteFormat = some d)
    (h2 : fileBaseName f.name ≠ lib.format lib.today s.dailyNoteFormat)
    (h3 : startsWith f.path (targetFolder lib s.baseJournalFolder d
      s.yearlyFolderFormat s.monthlyFolderFormat) = false)
    (h4 : v.renameFails (targetFolder lib s.baseJournalFolder d
      s.yearlyFolderFormat s.monthlyFolderFormat ++ "/" ++ f.name) = false) :
    (handleOldDailyFile s lib v f).1 = some f.name ∧
    Effect.renameCall f.path
        (s.baseJournalFolder ++ "/" ++ lib.format d s.yearlyFolderFormat ++ "/" ++
          lib.format d s.monthlyFolderFormat ++ "/" ++ f.name) true
      ∈ (handleOldDailyFile s lib v f).2.2 := by
  rw [handle_eq_moved s lib v f d h1 h2 h3 h4]
  refine ⟨rfl, ?_⟩
  simp [targetFolder]

/-- Witness for C1: `j/2025-01-15.md` on 2025-06-01 is renamed to
`j/2025/01/2025-01-15.md` and reported moved. -/
theorem dated_file_moved_to_year_month_witness :
    (handleOldDailyFile cSettings cLib cVault
        { folder := "j", name := "2025-01-15.md" }).1 = some "2025-01-15.md" ∧
    Effect.renameCall "j/2025-01-15.md" "j/2025/01/2025-01-15.md" true
      ∈ (handleOldDailyFile cSettings cLib cVault
          { folder := "j", name := "2025-01-15.md" }).2.2 :=
  dated_file_moved_to_year_month cSettings cLib cVault
    { folder := "j", name := "2025-01-15.md" } { year := 2025, month := 1, day := 15 }
    (by decide) (by decide) (by decide) (by decide)

/-- C2 counterexample: the code's target-folder computation does not
return the spec's literal formula
`base + "/" + year + "/" + base + "/" + year + "/" + month`; at base
`j`, date 2025-01-15, formats `YYYY`/`MM` the code computes
`j/2025/01` while the claimed formula gives `j/2025/j/2025/01`. -/
theorem path_resolver_formula_counterexample :
    targetFolder cLib "j" { year := 2025, month := 1, day := 15 } "YYYY" "MM"
      = "j/2025/01" ∧
    targetFolderSpec cLib "j" { year := 2025, month := 1, day := 15 } "YYYY" "MM"
      = "j/2025/j/2025/01" ∧
    targetFolder cLib "j" { year := 2025, month := 1, day := 15 } "YYYY" "MM"
      ≠ targetFolderSpec cLib "j" { year := 2025, month := 1, day := 15 } "YYYY" "MM" := by
  refine ⟨rfl, rfl, ?_⟩
  decide

/-- C2 (amended): the target-folder computation is pure and returns
`base + "/" + format(date, yearFmt) + "/" + format(date, monthFmt)` —
month folder under year folder under base — and this is the path whose
existence `handleOldDailyFile` ensures first for a dated non-today
file. -/
theorem path_resolver_base_year_month {D : Type} (s : Settings) (lib : DateLib D)
    (v : Vault) (f : TFile) (d : D)
    (h1 : lib.parseStrict (fileBaseName f.name) s.dailyNoteFormat = some d)
    (h2 : fileBaseName f.name ≠ lib.format lib.today s.dailyNoteFormat)
    (h3 : v.folders = []) :
    targetFolder lib s.baseJournalFolder d s.yearlyFolderFormat s.monthlyFolderFormat
      = s.baseJournalFolder ++ "/" ++ lib.format d s.yearlyFolderFormat ++ "/" ++
        lib.format d s.monthlyFolderFormat ∧
    ((handleOldDailyFile s lib v f).2.2).head? = some (Effect.createFolder
      (s.baseJournalFolder ++ "/" ++ lib.format d s.yearlyFolderFormat ++ "/" ++
        lib.format d s.monthlyFolderFormat)) := by
  refine ⟨rfl, ?_⟩
  have hens : ensureFolderExists v (targetFolder lib s.baseJournalFolder d
      s.yearlyFolderFormat s.monthlyFolderFormat) =
      ({ v with folders := [targetFolder lib s.baseJournalFolder d
          s.yearlyFolderFormat s.monthlyFolderFormat] },
       [Effect.createFolder (targetFolder lib s.baseJournalFolder d
          s.yearlyFolderFormat s.monthlyFolderFormat)]) := by
    simp [ensureFolderExists, h3]
  by_cases h3s : startsWith f.path (targetFolder lib s.baseJournalFolder d
      s.yearlyFolderFormat s.monthlyFolderFormat) = true
  · rw [handle_eq_placed s lib v f d h1 h2 h3s]
    rw [hens]
    rfl
  · have h3f : startsWith f.path (targetFolder lib s.baseJournalFolder d
      s.yearlyFolderFormat s.monthlyFolderFormat) = false := by simpa using h3s
    by_cases h4 : v.renameFails (targetFolder lib s.baseJournalFolder d
        s.yearlyFolderFormat s.monthlyFolderFormat ++ "/" ++ f.name) = true
    · rw [handle_eq_failed s lib v f d h1 h2 h3f h4]
      rw [hens]
      rfl
    · have h4f : v.renameFails (targetFolder lib s.baseJournalFolder d
        s.yearlyFolderFormat s.monthlyFolderFormat ++ "/" ++ f.name) = false := by
        simpa using h4
      rw [handle_eq_moved s lib v f d h1 h2 h3f h4f]
      rw [hens]
      rfl

/-- Witness for C2 (amended) at base `j`, date 2025-01-15, formats
`YYYY`/`MM`, on a vault with no folders yet. -/
theorem path_resolver_base_year_month_witness :
    targetFolder cLib "j" { year := 2025, month := 1, day := 15 } "YYYY" "MM"
      = "j/2025/01" ∧
    ((handleOldDailyFile cSettings cLib cVaultEmpty
        { folder := "j", name := "2025-01-15.md" }).2.2).head?
      = some (Effect.createFolder "j/2025/01") :=
  path_resolver_base_year_month cSettings cLib cVaultEmpty
    { folder := "j", name := "2025-01-15.md" } { year := 2025, month := 1, day := 15 }
    (by decide) (by decide) rfl

/-- C3: a file whose base name (extension stripped) does not strictly
parse under `dailyNoteFormat` is skipped: `handleOldDailyFile` returns
`none`, the vault is unchanged, and no storage call is made. -/
theorem undated_file_skipped_no_mutation {D : Type} (s : Settings) (lib : DateLib D)
    (v : Vault) (f : TFile)
    (h : lib.parseStrict (fileBaseName f.name) s.dailyNoteFormat = none) :
    handleOldDailyFile s lib v f = (none, v, []) :=
  handle_eq_undated s lib v f h

/-- Witness for C3: `notes.md` is skipped with no storage call. -/
theorem undated_file_skipped_no_mutation_witness :
    handleOldDailyFile cSettings cLib cVault { folder := "j", name := "notes.md" }
      = (none, cVault, []) :=
  undated_file_skipped_no_mutation cSettings cLib cVault
    { folder := "j", name := "notes.md" } (by decide)

/-- C4: a valid dated file whose base name equals today's date rendered
with `dailyNoteFormat` (exact string equality) is skipped:
`handleOldDailyFile` returns `none`, the vault is unchanged, and no
move and no folder creation occurs. -/
theorem todays_file_skipped_no_mutation {D : Type} (s : Settings) (lib : DateLib D)
    (v : Vault) (f : TFile) (d : D)
    (h1 : lib.parseStrict (fileBaseName f.name) s.dailyNoteFormat = some d)
    (h2 : fileBaseName f.name = lib.format lib.today s.dailyNoteFormat) :
    handleOldDailyFile s lib v f = (none, v, []) :=
  handle_eq_today s lib v f d h1 h2

/-- Witness for C4: `2025-06-01.md` on 2025-06-01 is skipped with no
storage call. -/
theorem todays_file_skipped_no_mutation_witness :
    handleOldDailyFile cSettings cLib cVault { folder := "j", name := "2025-06-01.md" }
      = (none, cVault, []) :=
  todays_file_skipped_no_mutation cSettings cLib cVault
    { folder := "j", name := "2025-06-01.md" } { year := 2025, month := 6, day := 1 }
    (by decide) (by decide)

/-- C5: a valid dated, non-today file whose current path already starts
(string prefix) with the target folder path is skipped: no rename call
is issued, `none` is returned, and the file list is unchanged — the
guard is a loose string-prefix check, not a path-segment check. -/
theorem placed_prefix_file_skipped {D : Type} (s : Settings) (lib : DateLib D)
    (v : Vault) (f : TFile) (d : D)
    (h1 : lib.parseStrict (fileBaseName f.name) s.dailyNoteFormat = some d)
    (h2 : fileBaseName f.name ≠ lib.format lib.today s.dailyNoteFormat)
    (h3 : startsWith f.path (targetFolder lib s.baseJournalFolder d
      s.yearlyFolderFormat s.monthlyFolderFormat) = true) :
    (handleOldDailyFile s lib v f).1 = none ∧
    ((handleOldDailyFile s lib v f).2.2).all (fun e => !isRenameEffect e) = true ∧
    (handleOldDailyFile s lib v f).2.1.files = v.files := by
  rw [handle_eq_placed s lib v f d h1 h2 h3]
  exact ⟨rfl, ensureFolderExists_trace_all v _ _ rfl, ensureFolderExists_files v _⟩

/-- Witness for C5, exercising the loose-prefix edge case: target
`j/2025/03`, file at `j/2025/030-extra/2025-03-05.md` — not in the
target folder's subtree, yet skipped because of the string prefix. -/
theorem placed_prefix_file_skipped_witness :
    (handleOldDailyFile cSettings cLib cVault
        { folder := "j/2025/030-extra", name := "2025-03-05.md" }).1 = none ∧
    ((handleOldDailyFile cSettings cLib cVault
        { folder := "j/2025/030-extra", name := "2025-03-05.md" }).2.2).all
      (fun e => !isRenameEffect e) = true ∧
    (handleOldDailyFile cSettings cLib cVault
        { folder := "j/2025/030-extra", name := "2025-03-05.md" }).2.1.files
      = cVault.files :=
  placed_prefix_file_skipped cSettings cLib cVault
    { folder := "j/2025/030-extra", name := "2025-03-05.md" }
    { year := 2025, month := 3, day := 5 } (by decide) (by decide) (by decide)

/-- C6: a rename failure is contained: `handleOldDailyFile` returns
`none` and leaves the file list unchanged (no fault propagates), and
the bulk sweep still produces one classification result per direct
child of the base folder, whatever the rename oracle does. -/
theorem move_failure_isolated :
    (∀ (D : Type) (s : Settings) (lib : DateLib D) (v : Vault) (f : TFile) (d : D),
      lib.parseStrict (fileBaseName f.name) s.dailyNoteFormat = some d →
      fileBaseName f.name ≠ lib.format lib.today s.dailyNoteFormat →
      startsWith f.path (targetFolder lib s.baseJournalFolder d
        s.yearlyFolderFormat s.monthlyFolderFormat) = false →
      v.renameFails (targetFolder lib s.baseJournalFolder d
        s.yearlyFolderFormat s.monthlyFolderFormat ++ "/" ++ f.name) = true →
      (handleOldDailyFile s lib v f).1 = none ∧
      (handleOldDailyFile s lib v f).2.1.files = v.files) ∧
    (∀ (D : Type) (s : Settings) (lib : DateLib D) (v : Vault),
      v.folders.contains s.baseJournalFolder = true →
      (organizeExistingFiles s lib v).1.length
        = (childrenFiles v s.baseJournalFolder).length) := by
  constructor
  · intro D s lib v f d h1 h2 h3 h4
    rw [handle_eq_failed s lib v f d h1 h2 h3 h4]
    exact ⟨rfl, ensureFolderExists_files v _⟩
  · intro D s lib v h
    unfold organizeExistingFiles
    rw [if_pos h]
    exact processFiles_length s lib _ v

/-- Witness for C6: in `cVaultFail` the move of `2025-01-15.md` fails
(by the oracle) yet yields `none` with the files untouched, and the
sweep still classifies both children. -/
theorem move_failure_isolated_witness :
    ((handleOldDailyFile cSettings cLib cVaultFail
        { folder := "j", name := "2025-01-15.md" }).1 = none ∧
      (handleOldDailyFile cSettings cLib cVaultFail
        { folder := "j", name := "2025-01-15.md" }).2.1.files = cVaultFail.files) ∧
    (organizeExistingFiles cSettings cLib cVaultFail).1.length
      = (childrenFiles cVaultFail cSettings.baseJournalFolder).length :=
  ⟨move_failure_isolated.1 Date cSettings cLib cVaultFail
      { folder := "j", name := "2025-01-15.md" } { year := 2025, month := 1, day := 15 }
      (by decide) (by decide) (by decide) (by decide),
   move_failure_isolated.2 Date cSettings cLib cVaultFail (by decide)⟩

/-- C7 counterexample: a dated file whose rename fails stays in the
base folder, and a second sweep with no file-system changes in between
issues a rename call again — the second run's trace is not free of
rename calls. -/
theorem second_sweep_rename_retry_counterexample :
    (organizeExistingFiles cSettings cLib
        (organizeExistingFiles cSettings cLib cVaultRetry).2.1).2.2
      = [Effect.renameCall "j/2025-01-15" "j/2025/01/2025-01-15" false] ∧
    ((organizeExistingFiles cSettings cLib
        (organizeExistingFiles cSettings cLib cVaultRetry).2.1).2.2).any
      isRenameEffect = true := by
  refine ⟨by decide, by decide⟩

/-- C7 (amended): running the bulk organizer twice in succession with
no file-system changes between the runs produces zero successful
renames (moves) on the second run; every rename call the second run
issues is a failed call and a repeat of a rename call already issued
(and failed) during the first run. -/
theorem second_sweep_all_skips {D : Type} (s : Settings) (lib : DateLib D) (v : Vault) :
    ((organizeExistingFiles s lib (organizeExistingFiles s lib v).2.1).2.2).all
      (fun e => !isMoveEffect e) = true ∧
    ∀ e ∈ (organizeExistingFiles s lib (organizeExistingFiles s lib v).2.1).2.2,
      isRenameEffect e = true →
        isMoveEffect e = false ∧ e ∈ (organizeExistingFiles s lib v).2.2 := by
  unfold organizeExistingFiles
  by_cases h1 : v.folders.contains s.baseJournalFolder = true
  · rw [if_pos h1]
    by_cases h2 : (processFiles s lib (childrenFiles v s.baseJournalFolder) v).2.1.folders.contains
        s.baseJournalFolder = true
    · rw [if_pos h2]
      have hpost := processFiles_post s lib (childrenFiles v s.baseJournalFolder) v
        (by
          intro g2 hg2 hfold2 _
          simp only [childrenFiles]
          exact List.mem_filter.mpr ⟨hg2, by simp [hfold2]⟩)
      have hL2 : ∀ g ∈ childrenFiles
          (processFiles s lib (childrenFiles v s.baseJournalFolder) v).2.1
          s.baseJournalFolder,
          wouldMove s lib (processFiles s lib (childrenFiles v s.baseJournalFolder)
            v).2.1.renameFails g = false := by
        intro g hg
        simp only [childrenFiles] at hg
        have hmem := List.mem_filter.mp hg
        have hfold : g.folder = s.baseJournalFolder := by simpa using hmem.2
        rw [processFiles_renameFails]
        exact hpost g hmem.1 hfold
      constructor
      · exact processFiles_no_moves s lib _ _ hL2
      · intro e he hre
        rcases processFiles_rename_source s lib _ _ hL2 e he hre with ⟨g, hgL2, hr, hEq⟩
        simp only [childrenFiles] at hgL2
        have hmem := List.mem_filter.mp hgL2
        have hfold : g.folder = s.baseJournalFolder := by simpa using hmem.2
        have hgv : g ∈ v.files := processFiles_base_mem s lib _ v g hmem.1 hfold
        have hgL : g ∈ childrenFiles v s.baseJournalFolder := by
          simp only [childrenFiles]
          exact List.mem_filter.mpr ⟨hgv, by simp [hfold]⟩
        rw [processFiles_renameFails] at hr
        rw [hEq]
        exact ⟨rfl, processFiles_retry_mem s lib _ v g hgL hr⟩
    · rw [if_neg h2]
      refine ⟨rfl, ?_⟩
      intro e he
      simp at he
  · rw [if_neg h1]
    rw [if_neg h1]
    refine ⟨rfl, ?_⟩
    intro e he
    simp at he

/-- Witness for C7 (amended): in the retry scenario, the second run's
lone rename call is failed and is the very call the first run already
issued. -/
theorem second_sweep_all_skips_witness :
    ((organizeExistingFiles cSettings cLib
        (organizeExistingFiles cSettings cLib cVaultRetry).2.1).2.2).all
      (fun e => !isMoveEffect e) = true ∧
    (isMoveEffect (Effect.renameCall "j/2025-01-15" "j/2025/01/2025-01-15" false) = false ∧
      Effect.renameCall "j/2025-01-15" "j/2025/01/2025-01-15" false
        ∈ (organizeExistingFiles cSettings cLib cVaultRetry).2.2) :=
  ⟨(second_sweep_all_skips cSettings cLib cVaultRetry).1,
   (second_sweep_all_skips cSettings cLib cVaultRetry).2
     (Effect.renameCall "j/2025-01-15" "j/2025/01/2025-01-15" false)
     (by decide) (by decide)⟩

/-- C8: when the base journal folder does not resolve to an existing
folder, the bulk sweep classifies nothing, mutates nothing, and makes
no storage call — it just returns. -/
theorem missing_base_sweep_noop {D : Type} (s : Settings) (lib : DateLib D)
    (v : Vault) (h : v.folders.contains s.baseJournalFolder = false) :
    organizeExistingFiles s lib v = ([], v, []) := by
  unfold organizeExistingFiles
  rw [if_neg (by intro hc; rw [h] at hc; exact Bool.false_ne_true hc)]

/-- Witness for C8: a vault with no folders at all. -/
theorem missing_base_sweep_noop_witness :
    organizeExistingFiles cSettings cLib cVaultEmpty = ([], cVaultEmpty, []) :=
  missing_base_sweep_noop cSettings cLib cVaultEmpty (by decide)

/-- C9: configurations differing only in the `createYearFolders` and
`createMonthFolders` flags are observationally identical for
`handleOldDailyFile` and `ensureCurrentFolderExists`: folders are
created unconditionally, so results and storage effects never depend
on the flags. -/
theorem create_flags_unobservable {D : Type} (s : Settings) (b1 b2 : Bool)
    (lib : DateLib D) (v : Vault) (f : TFile) :
    handleOldDailyFile { s with createYearFolders := b1, createMonthFolders := b2 } lib v f
      = handleOldDailyFile s lib v f ∧
    ensureCurrentFolderExists { s with createYearFolders := b1, createMonthFolders := b2 } lib v
      = ensureCurrentFolderExists s lib v := by
  cases s
  exact ⟨rfl, rfl⟩

/-- C10: extension stripping removes only the final dot-suffix:
`2025-01-15.tar.gz` parses to base name `2025-01-15.tar`; a dot-free
name is kept whole; and an extensionless file named exactly like a
date, such as `2025-01-15`, is classified as dated and moved. -/
theorem extension_stripping_last_dot :
    fileBaseName "2025-01-15.tar.gz" = "2025-01-15.tar" ∧
    (∀ name : String, '.' ∉ name.data → fileBaseName name = name) ∧
    (handleOldDailyFile cSettings cLib cVaultBare
        { folder := "j", name := "2025-01-15" }).1 = some "2025-01-15" :=
  ⟨by decide, fun name h => fileBaseName_eq_self name h, by decide⟩

/-- Witness for C10: the dot-free name `2025-01-15` is parsed
unchanged. -/
theorem extension_stripping_last_dot_witness :
    fileBaseName "2025-01-15" = "2025-01-15" :=
  extension_stripping_last_dot.2.1 "2025-01-15" (by decide)

end AutoFolders
